import Mathlib

/-
  Verification of the dogify bot-detection core
  (src/server/bot_detection/bot_detection_service.py and
   src/server/bot_detection/models.py).

  The Python service is embedded shallowly:
  * confidences are exact rationals (src uses binary floats; the
    thresholds compared against are short decimals, so the comparisons
    coincide except on ties that the source never produces exactly),
  * dictionaries are association lists (later duplicate keys win, as in
    Python dict construction),
  * database/cache collaborators (IPBlacklist.is_blacklisted,
    RequestPattern.analyze_patterns, the loaded sklearn models) are
    oracle parameters collected in DetectionEnv,
  * code that can raise on representable input is Except-valued; the
    caller propagates exactly where the source has no try/except.
  The `details`/`analysis` dictionary fields of layer results, the
  geo/threat-intel enrichment and the logging side effects are not
  modelled: no claim depends on them and they do not feed is_bot,
  confidence, risk_level or recommended_action.
-/

namespace Dogify

/-- Result of one detection layer: its confidence and the list of
method tags it reports (field `details` of the source is not modelled). -/
structure LayerResult where
  confidence : ℚ
  methods : List String
  deriving DecidableEq

/-- Python `round(x, 4)` used on the final confidence.  Ties round
half-up here (CPython rounds the nearest binary double half-to-even;
no claim distinguishes values at 1/20000 granularity). -/
def round4 (x : ℚ) : ℚ := (round (x * 10000) : ℤ) / 10000

/-- Embeds `_calculate_risk_level` (thresholds 0.9 / 0.7 / 0.5 / 0.3). -/
def calculate_risk_level (confidence : ℚ) : String :=
  if 0.9 ≤ confidence then "critical"
  else if 0.7 ≤ confidence then "high"
  else if 0.5 ≤ confidence then "medium"
  else if 0.3 ≤ confidence then "low"
  else "minimal"

/-- Embeds `_recommend_action`.  The source takes the layers dict as a
second argument and ignores it; the parameter is kept. -/
def recommend_action (confidence : ℚ) (_layers : List (String × LayerResult)) : String :=
  if 0.85 ≤ confidence then "block_immediately"
  else if 0.7 ≤ confidence then "challenge_required"
  else if 0.5 ≤ confidence then "monitor_closely"
  else if 0.3 ≤ confidence then "log_for_analysis"
  else "allow_with_tracking"

/-- Layer reliability weights (`layer_weights` in
`_calculate_advanced_confidence`), default 1.0. -/
def layerWeight (name : String) : ℚ :=
  if name = "ip_reputation" then 1.2
  else if name = "user_agent" then 1.0
  else if name = "headers" then 0.8
  else if name = "behavioral" then 1.1
  else if name = "request_patterns" then 0.9
  else if name = "fingerprint" then 1.0
  else if name = "ml_ensemble" then 1.3
  else 1.0

/-- Method-count boost `min(0.1 * (method_count - 1), 0.3)`.  The
subtraction is over ℤ as in Python, so an empty method list yields -0.1. -/
def methodBoost (methodCount : ℕ) : ℚ := min (0.1 * ((methodCount : ℚ) - 1)) 0.3

/-- Weighted score of one entry of the layers dict:
`(confidence + method_boost) * weight`. -/
def weightedLayerScore (nl : String × LayerResult) : ℚ :=
  (nl.2.confidence + methodBoost nl.2.methods.length) * layerWeight nl.1

/-- Python `max(list)` on a nonempty list (0 on [] for totality; the
source only calls it under a nonemptiness guard). -/
def maxQ : List ℚ → ℚ
  | [] => 0
  | x :: xs => xs.foldl max x

/-- Embeds `_calculate_advanced_confidence(scores, layers)`: guard on
empty `scores`, per-layer weighted scores, then
`min(max(weighted_scores) + 0.05*(len-1), 1.0)`. -/
def calculate_advanced_confidence (scores : List ℚ)
    (layers : List (String × LayerResult)) : ℚ :=
  if scores.isEmpty then 0
  else
    let weightedScores := layers.map weightedLayerScore
    if weightedScores.isEmpty then 0
    else min (maxQ weightedScores + 0.05 * ((weightedScores.length : ℚ) - 1)) 1

/-- Modelled from the spec's words (§4.3), for comparison with the
code's aggregator: for each triggered layer
`weighted = (confidence + min(0.1*(method_count-1), 0.3)) * weight`,
and the final confidence is
`min(max(weighted_scores) + 0.05*(num_triggered_layers-1), 1.0)`. -/
def specFinalConfidence (layers : List (String × LayerResult)) : ℚ :=
  min (maxQ (layers.map weightedLayerScore) + 0.05 * ((layers.length : ℚ) - 1)) 1

/-- Row of the `ip_blacklist` table (models.IPBlacklist); timestamps are
not modelled.  `detection_count` defaults to 1, `is_active` to True. -/
structure BlacklistEntry where
  reason : String
  confidence_score : ℚ
  detection_method : String
  user_agent : String
  fingerprint : String
  country_code : String
  detection_count : ℕ
  is_active : Bool
  deriving DecidableEq

/-- Blacklist table keyed by the unique `ip_address` column. -/
abbrev BlacklistStore := String → Option BlacklistEntry

/-- Embeds `_add_to_blacklist_advanced`: `get_or_create` keyed on the IP
(with the given defaults), and on an existing row raise
`confidence_score`/`detection_method` only when the new confidence is
strictly higher, then increment `detection_count`.  `is_active` is
never written on the update path. -/
def add_to_blacklist_advanced (store : BlacklistStore) (ip reason : String)
    (conf : ℚ) (method ua fp cc : String) : BlacklistStore :=
  match store ip with
  | none =>
      fun k => if k = ip then some ⟨reason, conf, method, ua, fp, cc, 1, true⟩ else store k
  | some e =>
      let e1 := if e.confidence_score < conf
        then { e with confidence_score := conf, detection_method := method } else e
      let e2 := { e1 with detection_count := e1.detection_count + 1 }
      fun k => if k = ip then some e2 else store k

/-- Embeds `IPBlacklist.is_blacklisted`: an active row for the IP
exists.  The 5-minute read-through cache is transparent here: every
write path of the source deletes the cache key for the IP. -/
def is_blacklisted (store : BlacklistStore) (ip : String) : Bool :=
  match store ip with
  | some e => e.is_active
  | none => false

/-! String scanning helpers, modelling the regular-expression and
substring operations the source applies to user agents and headers. -/

/-- Test whether `pat` occurs in `l` starting at index `i`. -/
def charsAt (l : List Char) (i : ℕ) (pat : List Char) : Bool :=
  pat.isPrefixOf (l.drop i)

/-- Python `pat in s` on character lists. -/
def containsSub (l pat : List Char) : Bool :=
  (List.range (l.length + 1)).any fun i => charsAt l i pat

/-- Character at index `i`, or a placeholder outside the list. -/
def chAt (l : List Char) (i : ℕ) : Char := l.getD i '\x00'

/-- Test for an ASCII digit at index `i` (false past the end). -/
def digitAt (l : List Char) (i : ℕ) : Bool := (chAt l i).isDigit

/-- Word character for the regex `\b` boundary: [A-Za-z0-9_]. -/
def isWordChar (c : Char) : Bool := c.isAlphanum || c = '_'

/-- Regex `\bbot\b`: an occurrence of "bot" delimited on both sides by
a string edge or a non-word character. -/
def hasWordBot (l : List Char) : Bool :=
  (List.range (l.length + 1)).any fun i =>
    charsAt l i ['b', 'o', 't'] &&
    (decide (i = 0) || !(isWordChar (chAt l (i - 1)))) &&
    (decide (l.length ≤ i + 3) || !(isWordChar (chAt l (i + 3))))

/-- Regex `link.?check`: "link", at most one arbitrary (non-newline)
character, then "check". -/
def linkCheckMatch (l : List Char) : Bool :=
  (List.range (l.length + 1)).any fun i =>
    charsAt l i ("link".toList) &&
    (charsAt l (i + 4) ("check".toList) ||
      (decide (i + 4 < l.length) && !(chAt l (i + 4) = '\n') &&
        charsAt l (i + 5) ("check".toList)))

/-- Index just past the maximal digit run starting at `i`. -/
def skipDigits (l : List Char) (i : ℕ) : ℕ :=
  i + ((l.drop i).takeWhile Char.isDigit).length

/-- Match `[0-9]+(\.[0-9]+){dots}` starting at `i`; returns the index
just past the match.  Maximal digit munch is exact here because each
inner run is followed by a literal dot. -/
def numRuns (l : List Char) (i : ℕ) : ℕ → Option ℕ
  | 0 => if digitAt l i then some (skipDigits l i) else none
  | n + 1 =>
      if digitAt l i then
        let j := skipDigits l i
        if chAt l j = '.' then numRuns l (j + 1) n else none
      else none

/-- Regex `mozilla/[45]\.0.*rv:[0-9]+.*firefox/[0-9]+.*` searched
case-insensitively (applied to the lowercased string; the `.*` gaps
here also admit newlines, which user agents do not contain). -/
def ffEvasion (l : List Char) : Bool :=
  (List.range (l.length + 1)).any fun i =>
    (charsAt l i ("mozilla/4.0".toList) || charsAt l i ("mozilla/5.0".toList)) &&
    ((List.range (l.length + 1)).any fun j =>
      decide (i + 11 ≤ j) && charsAt l j ("rv:".toList) && digitAt l (j + 3) &&
      ((List.range (l.length + 1)).any fun k =>
        decide (j + 4 ≤ k) && charsAt l k ("firefox/".toList) && digitAt l (k + 8)))

/-- Regex `chrome/[0-9]+\.[0-9]+\.[0-9]+\.[0-9]+.*safari/[0-9]+\.[0-9]+`
searched on the lowercased string. -/
def chromeSafariSusp (l : List Char) : Bool :=
  (List.range (l.length + 1)).any fun i =>
    charsAt l i ("chrome/".toList) &&
    (match numRuns l (i + 7) 3 with
     | none => false
     | some j =>
        (List.range (l.length + 1)).any fun k =>
          decide (j ≤ k) && charsAt l k ("safari/".toList) && (numRuns l (k + 7) 1).isSome)

/-- Numeric value of a digit list (most significant first). -/
def natOfDigits (l : List Char) : ℕ :=
  l.foldl (fun n c => n * 10 + (c.toNat - 48)) 0

/-- Regex search `Chrome/(\d+)\.(\d+)\.(\d+)\.(\d+)` (case-sensitive);
returns the first captured major version. -/
def chromeVersion (l : List Char) : Option ℕ :=
  (List.range (l.length + 1)).findSome? fun i =>
    if charsAt l i ("Chrome/".toList) then
      match numRuns l (i + 7) 3 with
      | some _ => some (natOfDigits ((l.drop (i + 7)).takeWhile Char.isDigit))
      | none => none
    else none

/-- ASCII lowercasing, as `re.I` and `str.lower` act on these
ASCII-only patterns. -/
def toLowerStr (s : String) : String := s.map Char.toLower

/-! User-agent analysis (`_analyze_user_agent_advanced` and helpers). -/

/-- Matchers for the `bot_patterns` regular expressions, which are
alternations of literal substrings apart from the four special forms
modelled by the other constructors. -/
inductive UAMatcher where
  | subs (alts : List String)
  | wordBotOr (alts : List String)
  | linkCheckOr (alts : List String)
  | ffSusp
  | chromeSusp
  deriving DecidableEq

/-- Evaluate a matcher on the lowercased character list of the user
agent (all `bot_patterns` are compiled with `re.I`). -/
def matchUA : UAMatcher → List Char → Bool
  | .subs alts, l => alts.any fun a => containsSub l a.toList
  | .wordBotOr alts, l => hasWordBot l || alts.any fun a => containsSub l a.toList
  | .linkCheckOr alts, l => linkCheckMatch l || alts.any fun a => containsSub l a.toList
  | .ffSusp, l => ffEvasion l
  | .chromeSusp, l => chromeSafariSusp l

/-- One row of the `bot_patterns` table. -/
structure BotPattern where
  matcher : UAMatcher
  weight : ℚ
  category : String
  deriving DecidableEq

/-- The `bot_patterns` table of the service constructor, in source
order. -/
def bot_patterns : List BotPattern :=
  [⟨.subs ["facebook", "facebookexternalhit", "facebot", "facebookcatalog"], 0.98, "social"⟩,
   ⟨.subs ["twitter", "twitterbot", "tweetmeme"], 0.95, "social"⟩,
   ⟨.subs ["linkedin", "linkedinbot"], 0.95, "social"⟩,
   ⟨.subs ["instagram", "instagrambot"], 0.95, "social"⟩,
   ⟨.subs ["google", "googlebot", "googleother", "adsbot-google"], 0.92, "search"⟩,
   ⟨.subs ["bing", "bingbot", "msnbot", "bingpreview"], 0.90, "search"⟩,
   ⟨.subs ["yahoo", "slurp", "yahooseeker"], 0.90, "search"⟩,
   ⟨.subs ["baidu", "baiduspider", "baiduimagebot"], 0.90, "search"⟩,
   ⟨.subs ["yandex", "yandexbot", "yandexmobilebot"], 0.90, "search"⟩,
   ⟨.subs ["duckduckgo", "duckduckbot"], 0.88, "search"⟩,
   ⟨.subs ["selenium", "webdriver"], 0.99, "automation"⟩,
   ⟨.subs ["puppeteer", "playwright", "chromium"], 0.98, "automation"⟩,
   ⟨.subs ["phantomjs", "phantom", "slimerjs"], 0.97, "automation"⟩,
   ⟨.subs ["headless", "chrome-headless"], 0.96, "automation"⟩,
   ⟨.subs ["curl", "wget", "httpie"], 0.95, "script"⟩,
   ⟨.subs ["python-requests", "python-urllib", "python-httpx"], 0.94, "script"⟩,
   ⟨.subs ["nodejs", "node.js", "axios", "fetch"], 0.92, "script"⟩,
   ⟨.subs ["ruby", "mechanize", "httparty"], 0.93, "script"⟩,
   ⟨.subs ["java", "apache-httpclient", "okhttp"], 0.91, "script"⟩,
   ⟨.subs ["go-http-client", "golang"], 0.90, "script"⟩,
   ⟨.wordBotOr ["crawler", "spider", "scraper", "scrape"], 0.85, "generic"⟩,
   ⟨.subs ["monitor", "check", "test", "scan", "probe"], 0.80, "monitoring"⟩,
   ⟨.linkCheckOr ["feed", "rss", "sitemap"], 0.75, "utility"⟩,
   ⟨.ffSusp, 0.60, "suspicious"⟩,
   ⟨.chromeSusp, 0.55, "suspicious"⟩]

/-- One max-accumulation step: on a fired check, take the maximum with
the check's weight and append its method tags (the accumulation shape
of `_analyze_user_agent_advanced`). -/
def maxStep (st : ℚ × List String) (fired : Bool) (amt : ℚ)
    (tags : List String) : ℚ × List String :=
  if fired then (max st.1 amt, st.2 ++ tags) else st

/-- A guarded check: fired flag, confidence amount, method tags. -/
abbrev Check := Bool × ℚ × List String

/-- Run a sequence of max-accumulation checks. -/
def runMaxChecks (init : ℚ × List String) (checks : List Check) : ℚ × List String :=
  checks.foldl (fun st c => maxStep st c.1 c.2.1 c.2.2) init

/-- The `bot_patterns` matching loop: running maximum of matched
weights, one `pattern_<category>` tag per match. -/
def uaPatternState (l : List Char) : ℚ × List String :=
  bot_patterns.foldl
    (fun st p => maxStep st (matchUA p.matcher l) p.weight ["pattern_" ++ p.category])
    (0, [])

/-- Message of the uncaught `float('')` ValueError raised by
`_check_os_consistency` on a Windows NT version starting with a dot. -/
def floatError : String := "ValueError: could not convert string to float"

/-- Regex search `Windows NT ([\d.]+)` (case-sensitive): the first
position where "Windows NT " is followed by at least one digit or dot,
capturing the maximal run. -/
def ntVersion (l : List Char) : Option (List Char) :=
  (List.range (l.length + 1)).findSome? fun i =>
    if charsAt l i ("Windows NT ".toList) then
      let run := (l.drop (i + 11)).takeWhile fun c => c.isDigit || c = '.'
      if run.isEmpty then none else some run
    else none

/-- Regex search `Mac OS X ([\d_]+)` (case-sensitive). -/
def macVersion (l : List Char) : Option (List Char) :=
  (List.range (l.length + 1)).findSome? fun i =>
    if charsAt l i ("Mac OS X ".toList) then
      let run := (l.drop (i + 9)).takeWhile fun c => c.isDigit || c = '_'
      if run.isEmpty then none else some run
    else none

/-- Windows half of `_check_os_consistency`.  The
`float(nt_version.split('.')[0])` call raises an uncaught ValueError
when the captured version starts with a dot (empty first component). -/
def windowsIssues (s : String) : Except String (List String) :=
  if containsSub s.toList ("Windows NT".toList) then
    match ntVersion s.toList with
    | none => .ok []
    | some v =>
        if v = "1.0".toList ∨ v = "2.0".toList ∨ v = "3.0".toList then
          .ok ["impossible_windows_version"]
        else
          let fc := v.takeWhile fun c => c ≠ '.'
          if fc.isEmpty then .error floatError
          else if 15 < natOfDigits fc then .ok ["future_windows_version"]
          else .ok []
  else .ok []

/-- macOS half of `_check_os_consistency`; its `int(...)` ValueError is
caught by the source and tagged `malformed_macos_version`. -/
def macIssues (s : String) : List String :=
  if containsSub s.toList ("Mac OS X".toList) then
    match macVersion s.toList with
    | none => []
    | some v =>
        let vr := v.map fun c => if c = '_' then '.' else c
        let fc := vr.takeWhile fun c => c ≠ '.'
        if fc.isEmpty then ["malformed_macos_version"]
        else
          let mv := natOfDigits fc
          if 15 < mv ∨ mv < 10 then ["suspicious_macos_version"] else []
  else []

/-- Embeds `_check_os_consistency`: Windows issues (may raise) followed
by macOS issues. -/
def check_os_consistency (s : String) : Except String (List String) :=
  match windowsIssues s with
  | .error e => .error e
  | .ok w => .ok (w ++ macIssues s)

/-- Embeds `_check_browser_features` (case-sensitive substring tests). -/
def check_browser_features (s : String) : List String :=
  let l := s.toList
  let c1 := if containsSub l ("Chrome".toList) && !containsSub l ("Safari".toList)
    then ["chrome_missing_safari"] else []
  let c2 := if containsSub l ("Chrome".toList) && !containsSub l ("WebKit".toList)
    then ["chrome_missing_webkit"] else []
  let c3 := if containsSub l ("Firefox".toList) && !containsSub l ("Gecko".toList)
    then ["firefox_missing_gecko"] else []
  let c4 := if containsSub l ("Safari".toList) && !containsSub l ("Version".toList)
      && !containsSub l ("Chrome".toList)
    then ["safari_missing_version"] else []
  c1 ++ c2 ++ c3 ++ c4

/-- Multiplicities of the distinct characters of `l`. -/
def charCounts (l : List Char) : List ℕ :=
  l.dedup.map fun c => l.count c

/-- Product of `c ^ c` over the character multiplicities. -/
def prodPowCounts (l : List Char) : ℕ :=
  (charCounts l).foldl (fun acc c => acc * c ^ c) 1

/-- The Shannon-entropy test `_calculate_string_entropy(ua) < 3.0`,
stated exactly over ℕ: with n = len(ua) and multiplicities c_i, the
entropy log2 n - (1/n)*sum c_i*log2 c_i is below 3 iff
n^n < 2^(3n) * prod c_i^c_i. -/
def lowEntropyUA (l : List Char) : Bool :=
  decide (l.length ^ l.length < 2 ^ (3 * l.length) * prodPowCounts l)

/-- The `if/elif` length bands of `_analyze_user_agent_advanced`. -/
def uaLengthCheck (n : ℕ) : Check :=
  if n < 20 then (true, 0.80, ["extremely_short_ua"])
  else if n < 50 then (true, 0.60, ["short_ua"])
  else if 1000 < n then (true, 0.70, ["extremely_long_ua"])
  else (false, 0, [])

/-- The `if version < 70 or version > 150` test on the regex capture. -/
def chromeBad (l : List Char) : Bool :=
  match chromeVersion l with
  | some v => decide (v < 70) || decide (150 < v)
  | none => false

/-- The post-pattern checks of `_analyze_user_agent_advanced`, in
source order: length bands, Chrome version, OS consistency issues,
browser-feature issues, entropy floor. -/
def uaChecks (ua : String) (osIssues : List String) : List Check :=
  [uaLengthCheck ua.length,
   (chromeBad ua.toList, 0.50, ["suspicious_chrome_version"]),
   (!osIssues.isEmpty, 0.45, osIssues),
   (!(check_browser_features ua).isEmpty, 0.40, check_browser_features ua),
   (lowEntropyUA ua.toList, 0.35, ["low_entropy_ua"])]

/-- Embeds `_analyze_user_agent_advanced`.  Missing user agent returns
0.85 immediately; otherwise the pattern-matching loop and the checks of
`uaChecks` accumulate via running maxima.  The source interleaves the
pure checks around the OS-consistency call whose uncaught ValueError is
the error case; all checks are pure, so hoisting that call first
preserves both the error and the success behaviour. -/
def analyze_user_agent_advanced (ua : String) : Except String LayerResult :=
  if ua = "" then .ok ⟨0.85, ["missing_user_agent"]⟩
  else
    match check_os_consistency ua with
    | .error e => .error e
    | .ok osIssues =>
        let st := runMaxChecks (uaPatternState (ua.toList.map Char.toLower))
          (uaChecks ua osIssues)
        .ok ⟨st.1, st.2⟩

/-! IP reputation (`_analyze_ip_reputation`, `_is_datacenter_ip`). -/

/-- The `datacenter_ranges` prefix list (duplicates as in the source). -/
def datacenterRanges : List String :=
  ["52.", "54.", "3.", "13.", "15.", "35.", "34.", "104.",
   "40.", "52.", "13.", "20.", "167.", "138.", "159."]

/-- Embeds `_is_datacenter_ip`. -/
def is_datacenter_ip (ip : String) : Bool :=
  datacenterRanges.any fun p => p.isPrefixOf ip

/-- Embeds `_analyze_ip_reputation`; the blacklist store lookup is the
oracle `isActive` (IPBlacklist.is_blacklisted).  An empty IP returns
zero confidence immediately. -/
def analyze_ip_reputation (isActive : String → Bool) (ip : String) : LayerResult :=
  if ip = "" then ⟨0, []⟩
  else
    let c1 : ℚ := if isActive ip then 0.95 else 0
    let m1 : List String := if isActive ip then ["ip_blacklisted"] else []
    let c2 := if is_datacenter_ip ip then max c1 0.40 else c1
    let m2 := if is_datacenter_ip ip then m1 ++ ["datacenter_ip"] else m1
    ⟨c2, m2⟩

/-! Header analysis (`_analyze_headers_advanced`, `_analyze_header_order`). -/

/-- One confidence-accumulation step: on a fired check, add the amount
and append the tags (the accumulation shape of the header, behavioral
and fingerprint analyzers). -/
def addStep (st : ℚ × List String) (fired : Bool) (amt : ℚ)
    (tags : List String) : ℚ × List String :=
  if fired then (st.1 + amt, st.2 ++ tags) else st

/-- Run a sequence of additive checks. -/
def runAddChecks (init : ℚ × List String) (checks : List Check) : ℚ × List String :=
  checks.foldl (fun st c => addStep st c.1 c.2.1 c.2.2) init

/-- Python-dict lookup on an association list: the last binding of the
key wins, as later duplicate keys overwrite earlier ones. -/
def dictGet (l : List (String × String)) (k : String) : Option String :=
  ((l.filter fun kv => kv.1 = k).getLast?).map fun kv => kv.2

/-- The dict comprehension lowercasing header keys. -/
def headersLower (hs : List (String × String)) : List (String × String) :=
  hs.map fun kv => (toLowerStr kv.1, kv.2)

/-- Search success of the regex `[a-z]{2}(-[A-Z]{2})?`: two consecutive
ASCII lowercase letters somewhere (the optional group never constrains
search success). -/
def hasLangToken (v : String) : Bool :=
  let l := v.toList
  (List.range l.length).any fun i =>
    decide (i + 1 < l.length) && (chAt l i).isLower && (chAt l (i + 1)).isLower

/-- The `typical_order` list of `_analyze_header_order`. -/
def typicalOrder : List String :=
  ["host", "connection", "user-agent", "accept",
   "accept-language", "accept-encoding", "referer"]

/-- Embeds `_analyze_header_order`: positional matches against the
typical browser order, divided by the typical-order length. -/
def analyze_header_order (keys : List String) : ℚ :=
  if keys.isEmpty then 0
  else
    let kl := keys.map toLowerStr
    let matched := ((List.range typicalOrder.length).filter fun i =>
      decide (i < kl.length) && (kl.getD i "" = typicalOrder.getD i "")).length
    (matched : ℚ) / (typicalOrder.length : ℚ)

/-- The `bot_headers` proxy-indicator list. -/
def botProxyHeaders : List String :=
  ["x-forwarded-for", "x-real-ip", "x-cluster-client-ip",
   "x-forwarded-proto", "x-requested-with", "x-forwarded-host"]

/-- Embeds `_analyze_headers_advanced`: missing essential headers
(0.15 each, one tag), accept-value shape, accept-language shape,
connection value, proxy-header count, header order and DNT value;
result capped at 1. -/
def headerChecks (hs : List (String × String)) : List Check :=
  let hl := headersLower hs
  [((dictGet hl "accept").elim false fun v => !(("text/html").isPrefixOf v),
    0.35, ["non_browser_accept"]),
   ((dictGet hl "accept").elim false fun v => v.trim = "*/*",
    0.25, ["generic_accept_header"]),
   ((dictGet hl "accept-language").elim false fun v => !hasLangToken v,
    0.30, ["malformed_accept_language"]),
   ((dictGet hl "connection").elim false fun v =>
      !(toLowerStr v = "keep-alive" || toLowerStr v = "close"),
    0.20, ["unusual_connection_header"]),
   (decide (2 < (botProxyHeaders.filter fun h => (dictGet hl h).isSome).length),
    0.25, ["multiple_proxy_headers"]),
   (decide (analyze_header_order (hs.map fun kv => kv.1) < 0.5),
    0.15, ["unusual_header_order"]),
   ((dictGet hl "dnt").elim false fun v => !(v = "0" || v = "1"),
    0.10, ["invalid_dnt_header"])]

def analyze_headers_advanced (hs : List (String × String)) : LayerResult :=
  let hl := headersLower hs
  let missing := (["accept", "accept-language", "accept-encoding", "user-agent"].filter
    fun h => (dictGet hl h).isNone)
  let st0 : ℚ × List String :=
    ((missing.length : ℚ) * 0.15,
     if missing.isEmpty then [] else ["missing_essential_headers"])
  let st := runAddChecks st0 (headerChecks hs)
  ⟨min st.1 1, st.2⟩

/-! Behavioral analysis (`_analyze_behavior_advanced` and helpers).
The statistics.stdev comparisons are stated on the exact sample
variance (both comparison sides are nonnegative, so comparing squares
is equivalent). -/

/-- Telemetry bag sent by the client (`behavioral_data`).  A request
with a falsy (absent or empty) bag is modelled by `Option.none` at the
request level; `clickTiming` is read but never used by the source. -/
structure BehavioralData where
  mouseMovements : ℚ
  mouseEntropy : ℚ
  clickPatterns : List ℚ
  scrollBehavior : ℚ
  keyboardEvents : ℚ
  timeSpent : ℚ
  mouseVelocity : List ℚ
  deviceMotion : Bool
  orientationChange : Bool
  webglSupport : Bool
  screenResolution : String
  deriving DecidableEq

/-- statistics.mean (exact). -/
def meanQ (l : List ℚ) : ℚ := l.sum / (l.length : ℚ)

/-- Square of statistics.stdev: the sample variance with n-1
denominator (exact). -/
def sampleVar (l : List ℚ) : ℚ :=
  ((l.map fun x => (x - meanQ l) ^ 2).sum) / ((l.length : ℚ) - 1)

/-- Embeds `_analyze_click_patterns`: (too_regular, too_fast).
`too_fast` is mean interval < 50; `too_regular` is coefficient of
variation < 0.1, which for a positive mean is variance < (0.1*mean)^2
and is vacuously true otherwise (the source computes cov = 0 then). -/
def analyze_click_patterns (clicks : List ℚ) : Bool × Bool :=
  if clicks.length < 3 then (false, false)
  else
    let avg := meanQ clicks
    let tooFast := decide (avg < 50)
    let tooRegular :=
      if 0 < avg then decide (sampleVar clicks < (0.1 * avg) ^ 2) else true
    (tooRegular, tooFast)

/-- Embeds `_analyze_mouse_velocity` (the `suspicious` flag):
impossibly fast mean, impossibly slow positive mean, or stdev < 10
with mean > 10 (stated as variance < 100). -/
def analyze_mouse_velocity (vels : List ℚ) : Bool :=
  if vels.length < 10 then false
  else
    let avg := meanQ vels
    (decide (2000 < avg) || (decide (avg < 1) && decide (0 < avg))) ||
      (decide (sampleVar vels < 100) && decide (10 < avg))

/-- Python `int(str)`: optional surrounding whitespace, optional sign,
then a nonempty digit run (underscore grouping not modelled). -/
def parseIntPy (s : String) : Option ℤ :=
  let t := s.trim.toList
  let sd : ℤ × List Char :=
    match t with
    | '-' :: rest => (-1, rest)
    | '+' :: rest => (1, rest)
    | _ => (1, t)
  if !sd.2.isEmpty ∧ sd.2.all Char.isDigit then
    some (sd.1 * (natOfDigits sd.2 : ℤ))
  else none

/-- Embeds `_analyze_screen_metrics` (the `suspicious` flag): missing
'x', unpack/int ValueError, or a resolution in the bot list. -/
def analyze_screen_metrics (res : String) : Bool :=
  if !containsSub res.toList ['x'] then true
  else
    match res.splitOn "x" with
    | [ws, hs] =>
        match parseIntPy ws, parseIntPy hs with
        | some w, some h =>
            decide ((w, h) ∈ [((1920 : ℤ), (1080 : ℤ)), (1366, 768),
              (1280, 1024), (800, 600), (1024, 768)])
        | _, _ => true
    | _ => true

/-- The additive checks of `_analyze_behavior_advanced`, in source
order. -/
def behaviorChecks (bd : BehavioralData) : List Check :=
  let t5 := decide (5000 < bd.timeSpent)
  let cs := analyze_click_patterns bd.clickPatterns
  let clickActive := decide (3 < bd.clickPatterns.length)
  let t1 := decide (1000 < bd.timeSpent)
  let rate := (bd.mouseMovements + bd.keyboardEvents + bd.scrollBehavior) /
    (bd.timeSpent / 1000)
  [(t5 && decide (bd.mouseMovements = 0), 0.40, ["no_mouse_movement"]),
   (t5 && decide (bd.keyboardEvents = 0), 0.25, ["no_keyboard_interaction"]),
   (t5 && decide (bd.scrollBehavior = 0), 0.20, ["no_scrolling"]),
   (decide (50 < bd.mouseMovements) && decide (bd.mouseEntropy < 2.5),
    0.35, ["low_mouse_entropy"]),
   (clickActive && cs.1, 0.45, ["robotic_clicking"]),
   (clickActive && cs.2, 0.60, ["impossible_click_speed"]),
   (decide (10 < bd.mouseVelocity.length) && analyze_mouse_velocity bd.mouseVelocity,
    0.30, ["suspicious_mouse_velocity"]),
   (t1 && decide (rate = 0), 0.50, ["zero_interaction_rate"]),
   (t1 && !decide (rate = 0) && decide (50 < rate),
    0.40, ["superhuman_interaction_rate"]),
   (!bd.deviceMotion && !bd.orientationChange && decide (10000 < bd.timeSpent),
    0.25, ["no_device_physics"]),
   (!bd.webglSupport, 0.30, ["no_webgl_support"]),
   (!(bd.screenResolution = "") && analyze_screen_metrics bd.screenResolution,
    0.20, ["suspicious_screen_metrics"])]

/-- Embeds `_analyze_behavior_advanced`: additive checks in source
order, capped at 1. -/
def analyze_behavior_advanced (bd : BehavioralData) : LayerResult :=
  let st := runAddChecks (0, []) (behaviorChecks bd)
  ⟨min st.1 1, st.2⟩

/-! Fingerprint analysis (`_decode_fingerprint`,
`_analyze_browser_fingerprint` and helpers). -/

/-- Value of a base64-alphabet character. -/
def b64CharVal (c : Char) : Option ℕ :=
  if 'A' ≤ c ∧ c ≤ 'Z' then some (c.toNat - 65)
  else if 'a' ≤ c ∧ c ≤ 'z' then some (c.toNat - 71)
  else if '0' ≤ c ∧ c ≤ '9' then some (c.toNat + 4)
  else if c = '+' then some 62
  else if c = '/' then some 63
  else none

/-- Python `base64.b64decode(s).decode('utf-8')` in default
(non-validating) mode: non-alphabet characters are discarded, the kept
length must be a multiple of 4, data stops at the first padding '='.
Failure ('Incorrect padding', a dangling 6-bit group, or a non-ASCII
byte, conservatively standing in for UnicodeDecodeError) is `none`;
the caller `_decode_fingerprint` maps every failure to the empty dict,
so the exact failure mode is immaterial. -/
def b64decodeAscii (s : String) : Option (List Char) :=
  let kept := s.toList.filter fun c => (b64CharVal c).isSome || c = '='
  if kept.length % 4 ≠ 0 then none
  else
    let data := kept.takeWhile fun c => c ≠ '='
    if data.length % 4 = 1 then none
    else
      let vals := data.filterMap b64CharVal
      let stream := vals.foldl (fun acc v => acc * 64 + v) 0
      let nbytes := 6 * data.length / 8
      let bytes := (List.range nbytes).map fun i =>
        stream / 2 ^ (6 * data.length - 8 * i - 8) % 256
      if bytes.all fun b => b < 128 then some (bytes.map fun b => Char.ofNat b)
      else none

/-- Embeds `_decode_fingerprint`: decode, split on '|', keep the
components containing ':', split each on the first ':'.  Any exception
inside is caught by the function itself and yields the empty dict. -/
def decode_fingerprint (fp : String) : List (String × String) :=
  match b64decodeAscii fp with
  | none => []
  | some cs =>
      ((String.mk cs).splitOn "|").foldl
        (fun acc comp =>
          if containsSub comp.toList [':'] then
            let key := comp.takeWhile fun c => c ≠ ':'
            let value := comp.drop (key.length + 1)
            acc ++ [(key, value)]
          else acc) []

/-- Embeds `_analyze_screen_fingerprint` (the `suspicious` flag); its
internal ValueError/IndexError is caught by the source and reported as
suspicious. -/
def analyze_screen_fingerprint (sd : String) : Bool :=
  if sd = "" then false
  else
    let parts := sd.splitOn "x"
    if parts.length < 2 then true
    else
      match parseIntPy (parts.getD 0 ""), parseIntPy (parts.getD 1 "") with
      | some w, some h =>
          (match if 2 < parts.length then parseIntPy (parts.getD 2 "") else some 24 with
           | none => true
           | some depth =>
              if w = h then true
              else if w < 800 ∨ h < 600 then true
              else if 8000 < w ∨ 8000 < h then true
              else if depth ≠ 16 ∧ depth ≠ 24 ∧ depth ≠ 32 then true
              else false)
      | _, _ => true

/-- Embeds `_analyze_plugin_fingerprint` (the `suspicious` flag). -/
def pluginsSusp (v : String) : Bool :=
  if v = "" then true
  else !containsSub v.toList ("Mobile".toList) && v = "0"

/-- The `int(decoded['fonts'].split(':')[1])` expression: `none`
models its uncaught ValueError, which the fingerprint analyzer's outer
handler converts into the `fingerprint_decode_error` branch. -/
def fontsStep (v : String) : Option ℤ :=
  if containsSub v.toList [':'] then parseIntPy ((v.splitOn ":").getD 1 "")
  else some 0

/-- The component checks of `_analyze_browser_fingerprint` that
precede the fonts parse, in source order; a check whose component is
absent from the decoded dict never fires. -/
def fingerprintChecks (d : List (String × String)) : List Check :=
  [((dictGet d "screen").elim false analyze_screen_fingerprint,
    0.25, ["suspicious_screen_fingerprint"]),
   ((dictGet d "webgl").elim false fun v => v = "" || v = "unavailable",
    0.30, ["suspicious_webgl_fingerprint"]),
   ((dictGet d "canvas").elim false fun v => v = "" || decide (v.length < 10),
    0.35, ["suspicious_canvas_fingerprint"]),
   ((dictGet d "audio").elim false fun v => v = "" || v = "unavailable",
    0.25, ["suspicious_audio_fingerprint"])]

/-- The fonts checks (`font_count == 0` / `elif font_count > 200`) and
the plugin check that follow a successful fonts parse. -/
def fontsPluginChecks (d : List (String × String)) (fcOpt : Option ℤ) : List Check :=
  let fontsChecks : List Check :=
    match fcOpt with
    | some fc =>
        [(decide (fc = 0), 0.40, ["no_fonts_detected"]),
         (!decide (fc = 0) && decide (200 < fc), 0.20, ["excessive_fonts"])]
    | none => []
  fontsChecks ++
    [((dictGet d "plugins").elim false pluginsSusp, 0.30, ["suspicious_plugins"])]

/-- Embeds `_analyze_browser_fingerprint`.  A missing fingerprint is a
0.30 signal.  Otherwise the decoded components are checked in source
order; a ValueError in the fonts count aborts the remaining checks and
the outer handler adds 0.20 with `fingerprint_decode_error`. -/
def analyze_browser_fingerprint (fp : String) : LayerResult :=
  if fp = "" then ⟨0.30, ["missing_fingerprint"]⟩
  else
    let d := decode_fingerprint fp
    let st4 := runAddChecks (0, []) (fingerprintChecks d)
    match dictGet d "fonts" with
    | some v =>
        (match fontsStep v with
         | none => ⟨min (st4.1 + 0.20) 1, st4.2 ++ ["fingerprint_decode_error"]⟩
         | some fc =>
            let st := runAddChecks st4 (fontsPluginChecks d (some fc))
            ⟨min st.1 1, st.2⟩)
    | none =>
        let st := runAddChecks st4 (fontsPluginChecks d none)
        ⟨min st.1 1, st.2⟩

/-! ML ensemble (`_ml_ensemble_predict`,
`_calculate_ensemble_confidence`).  The loaded sklearn models are
oracles: a classifier reports `predict_proba`'s bot-class probability,
an anomaly detector reports `decision_function`'s score and the
`predict == -1` flag, and `modelError` marks a model whose prediction
raised (caught per model).  The feature vector itself is opaque here:
its only influence flows through the oracle outputs, and an exception
ahead of the per-model loop is modelled by `outerError`. -/

inductive MLModel where
  | classifier (prob : ℚ)
  | anomaly (score : ℚ) (isAnomaly : Bool)
  | modelError (msg : String)
  deriving DecidableEq

/-- Model-type weights of `_calculate_ensemble_confidence`. -/
def modelWeight (name : String) : ℚ :=
  if name = "isolation_forest" then 1.2
  else if name = "random_forest" then 1.0
  else if name = "svm" then 0.9
  else if name = "neural_network" then 1.1
  else 1.0

/-- Per-model bot probability: classifiers report directly; anomaly
detectors clamp `(-score + 0.5) / 2` into [0,1] when flagged, else 0;
an erroring model contributes no numeric prediction. -/
def modelBotProbability : MLModel → Option ℚ
  | .classifier p => some p
  | .anomaly s a => some (if a then min 1 (max 0 ((-s + 0.5) / 2)) else 0)
  | .modelError _ => none

/-- Embeds `_calculate_ensemble_confidence`: mean of the
model-weighted numeric predictions, capped at 1. -/
def calculate_ensemble_confidence (preds : List (String × Option ℚ)) : ℚ :=
  let ws := preds.filterMap fun np => np.2.map fun p => p * modelWeight np.1
  if ws.isEmpty then 0 else min (ws.sum / (ws.length : ℚ)) 1

/-- The live model set plus the possibility of an exception caught by
the outer try of `_ml_ensemble_predict`. -/
structure MLEnv where
  models : List (String × MLModel)
  outerError : Option String

/-- Embeds `_ml_ensemble_predict`: no models → zero contribution; an
exception caught by the outer handler → zero confidence tagged
`ml_ensemble_error`; otherwise the ensemble mean with an `ml_ensemble`
tag and one `ml_<name>_positive` tag per model scoring above 0.7. -/
def ml_ensemble_predict (env : MLEnv) : LayerResult :=
  if env.models.isEmpty then ⟨0, []⟩
  else
    match env.outerError with
    | some _ => ⟨0, ["ml_ensemble_error"]⟩
    | none =>
        let preds := env.models.map fun nm => (nm.1, modelBotProbability nm.2)
        let scores := preds.filterMap fun np => np.2
        if scores.isEmpty then ⟨0, []⟩
        else
          let conf := calculate_ensemble_confidence preds
          let pos := preds.filterMap fun np => np.2.bind fun p =>
            if 0.7 < p then some ("ml_" ++ np.1 ++ "_positive") else none
          ⟨conf, "ml_ensemble" :: pos⟩

/-! Request-pattern analysis and the full pipeline (`detect_bot`). -/

/-- Outcome of the collaborator `RequestPattern.analyze_patterns`
(models.py): `suspicious` is `reasons ≠ []`, and `request_count` is
the rolling-window request total. -/
structure PatternAnalysis where
  suspicious : Bool
  reasons : List String
  request_count : ℕ

/-- Embeds `_analyze_request_patterns_advanced` given the analysis
oracle's outcome: 0.6 above 50 requests, else 0.4, methods are the
reasons. -/
def analyze_request_patterns_advanced (pa : PatternAnalysis) : LayerResult :=
  if pa.suspicious then
    ⟨if 50 < pa.request_count then 0.6 else 0.4, pa.reasons⟩
  else ⟨0, []⟩

/-- External collaborators of `detect_bot`. -/
structure DetectionEnv where
  is_active : String → Bool
  patterns : String → PatternAnalysis
  ml : MLEnv

/-- The per-request input dict consumed by `detect_bot`.  A falsy
`behavioral_data` dict is `none`. -/
structure RequestData where
  ip_address : String
  user_agent : String
  headers : List (String × String)
  behavioral_data : Option BehavioralData
  fingerprint : String

/-- Accumulator for the layers dict, the `confidence_scores` list and
the flat method list `detect_bot` builds in parallel. -/
structure DetectionAcc where
  layers : List (String × LayerResult)
  scores : List ℚ
  methods : List String

/-- One `if layer['confidence'] > 0` inclusion step of `detect_bot`. -/
def pushLayer (acc : DetectionAcc) (name : String) (l : LayerResult)
    (w : ℚ) : DetectionAcc :=
  if 0 < l.confidence then
    ⟨acc.layers ++ [(name, l)], acc.scores ++ [l.confidence * w],
     acc.methods ++ l.methods⟩
  else acc

/-- The classification outcome (geo/threat enrichment and the logging
and auto-response side effects are not modelled; they do not feed any
of these fields). -/
structure DetectionResult where
  is_bot : Bool
  confidence : ℚ
  methods : List String
  risk_level : String
  recommended_action : String
  detection_layers : List (String × LayerResult)
  deriving DecidableEq

/-- The seven `if layer['confidence'] > 0` inclusion steps of
`detect_bot`, in source order (layer 4 runs only on a truthy
behavioral dict). -/
def detectAcc (env : DetectionEnv) (req : RequestData)
    (layer2 : LayerResult) : DetectionAcc :=
  let acc1 := pushLayer ⟨[], [], []⟩ "ip_reputation"
    (analyze_ip_reputation env.is_active req.ip_address) 0.25
  let acc2 := pushLayer acc1 "user_agent" layer2 0.20
  let acc3 := pushLayer acc2 "headers" (analyze_headers_advanced req.headers) 0.15
  let acc4 :=
    match req.behavioral_data with
    | some bd => pushLayer acc3 "behavioral" (analyze_behavior_advanced bd) 0.25
    | none => acc3
  let acc5 := pushLayer acc4 "request_patterns"
    (analyze_request_patterns_advanced (env.patterns req.ip_address)) 0.10
  let acc6 := pushLayer acc5 "fingerprint"
    (analyze_browser_fingerprint req.fingerprint) 0.15
  pushLayer acc6 "ml_ensemble" (ml_ensemble_predict env.ml) 0.30

/-- Body of `detect_bot` after the user-agent layer has been computed
(the only layer whose source can raise on representable input). -/
def detect_bot_core (env : DetectionEnv) (req : RequestData)
    (layer2 : LayerResult) : DetectionResult :=
  let acc := detectAcc env req layer2
  let final := calculate_advanced_confidence acc.scores acc.layers
  { is_bot := decide (0.6 ≤ final)
    confidence := round4 final
    methods := acc.methods.dedup
    risk_level := calculate_risk_level final
    recommended_action := recommend_action final acc.layers
    detection_layers := acc.layers }

/-- Embeds `detect_bot`.  The user-agent analyzer's uncaught ValueError
propagates: `detect_bot` itself has no try/except around the layer
calls. -/
def detect_bot (env : DetectionEnv) (req : RequestData) :
    Except String DetectionResult :=
  match analyze_user_agent_advanced req.user_agent with
  | .error e => .error e
  | .ok layer2 => .ok (detect_bot_core env req layer2)

/-! Concrete fixtures used to instantiate the theorems below. -/

/-- Environment with nothing blacklisted, no suspicious request
pattern on record, and no ML models loaded. -/
def envBenign : DetectionEnv :=
  ⟨fun _ => false, fun _ => ⟨false, [], 0⟩, ⟨[], none⟩⟩

/-- Environment whose blacklist store reports every IP active. -/
def envAllBlacklisted : DetectionEnv :=
  ⟨fun _ => true, fun _ => ⟨false, [], 0⟩, ⟨[], none⟩⟩

/-- A Facebook-crawler request (spec scenario 3). -/
def reqFacebook : RequestData :=
  ⟨"203.0.113.9", "facebookexternalhit/1.1", [], none, ""⟩

/-- A request whose user agent makes `_check_os_consistency` raise
`float('')` (Windows NT version starting with a dot). -/
def reqWindowsCrash : RequestData :=
  ⟨"203.0.113.9", "Mozilla/5.0 (Windows NT .; Win64; x64)", [], none, ""⟩

/-- The classification of `reqFacebook` under `envBenign` (total
because that user agent does not hit the ValueError path). -/
def fbResult : DetectionResult :=
  match detect_bot envBenign reqFacebook with
  | .ok r => r
  | .error _ => ⟨false, 0, [], "", "", []⟩

/-- The classification of `reqFacebook` under `envAllBlacklisted`. -/
def blackResult : DetectionResult :=
  match detect_bot envAllBlacklisted reqFacebook with
  | .ok r => r
  | .error _ => ⟨false, 0, [], "", "", []⟩

/-! Invariants used by the theorems below. -/

/-- Accumulated-confidence invariant: zero, or at least 0.1 (every
elementary amount and pattern weight in the source is at least 0.1). -/
def confOk (c : ℚ) : Prop := c = 0 ∨ 0.1 ≤ c

/-- What the aggregator needs of an included layer: if strictly
positive, the confidence is at least 0.1 or a method tag is present
(so the -0.1 method boost of an empty tag list cannot push the
weighted score negative). -/
def layerOk (l : LayerResult) : Prop :=
  0 < l.confidence → 0.1 ≤ l.confidence ∨ l.methods ≠ []

/-- A check list whose fired amounts are all at least 0.1. -/
def checksOk (cs : List Check) : Prop := ∀ c ∈ cs, c.1 = true → 0.1 ≤ c.2.1

/-- Invariant of the `detect_bot` accumulator: every included layer
has a nonnegative weighted score, and the scores and layers lists are
empty together. -/
def accOk (acc : DetectionAcc) : Prop :=
  (∀ nl ∈ acc.layers, 0 ≤ weightedLayerScore nl) ∧
    (acc.scores = [] ↔ acc.layers = [])

/-! Helper lemmas. -/

theorem foldl_max_init_le (xs : List ℚ) (x : ℚ) : x ≤ xs.foldl max x := by
  induction xs generalizing x with
  | nil => simp
  | cons y ys ih => exact le_trans (le_max_left x y) (ih (max x y))

theorem foldl_max_mem_le (xs : List ℚ) (x a : ℚ) (h : a ∈ xs) : a ≤ xs.foldl max x := by
  induction xs generalizing x with
  | nil => simp at h
  | cons y ys ih =>
    rcases List.mem_cons.mp h with rfl | h'
    · exact le_trans (le_max_right x a) (foldl_max_init_le ys (max x a))
    · exact ih (max x y) h'

theorem le_maxQ_of_mem (a : ℚ) (l : List ℚ) (h : a ∈ l) : a ≤ maxQ l := by
  cases l with
  | nil => simp at h
  | cons x xs =>
    rcases List.mem_cons.mp h with rfl | h'
    · exact foldl_max_init_le xs a
    · exact foldl_max_mem_le xs x a h'

theorem confOk_nonneg {c : ℚ} (h : confOk c) : 0 ≤ c := by
  rcases h with rfl | h
  · exact le_refl 0
  · linarith

theorem confOk_addStep {st : ℚ × List String} {b : Bool} {a : ℚ} {t : List String}
    (h : confOk st.1) (ha : b = true → 0.1 ≤ a) : confOk (addStep st b a t).1 := by
  unfold addStep
  cases b with
  | false => simpa using h
  | true =>
    have ha' := ha rfl
    have h0 := confOk_nonneg h
    right
    show (0.1 : ℚ) ≤ st.1 + a
    linarith

theorem confOk_maxStep {st : ℚ × List String} {b : Bool} {a : ℚ} {t : List String}
    (h : confOk st.1) (ha : b = true → 0.1 ≤ a) : confOk (maxStep st b a t).1 := by
  unfold maxStep
  cases b with
  | false => simpa using h
  | true =>
    have ha' := ha rfl
    simp only [if_pos]
    right
    exact le_trans ha' (le_max_right _ _)

theorem confOk_runAddChecks {cs : List Check} (hcs : checksOk cs)
    {init : ℚ × List String} (h : confOk init.1) : confOk (runAddChecks init cs).1 := by
  induction cs generalizing init with
  | nil => simpa [runAddChecks] using h
  | cons c cs ih =>
    have hc := hcs c (List.mem_cons_self c cs)
    have hcs' : checksOk cs := fun d hd => hcs d (List.mem_cons_of_mem c hd)
    exact ih hcs' (confOk_addStep h hc)

theorem confOk_runMaxChecks {cs : List Check} (hcs : checksOk cs)
    {init : ℚ × List String} (h : confOk init.1) : confOk (runMaxChecks init cs).1 := by
  induction cs generalizing init with
  | nil => simpa [runMaxChecks] using h
  | cons c cs ih =>
    have hc := hcs c (List.mem_cons_self c cs)
    have hcs' : checksOk cs := fun d hd => hcs d (List.mem_cons_of_mem c hd)
    exact ih hcs' (confOk_maxStep h hc)

theorem confOk_min_one {c : ℚ} (h : confOk c) : confOk (min c 1) := by
  rcases h with rfl | h
  · left; simp
  · right
    rcases le_total c 1 with h1 | h1
    · rw [min_eq_left h1]; exact h
    · rw [min_eq_right h1]; norm_num

theorem confOk_layerOk {l : LayerResult} (h : confOk l.confidence) : layerOk l := by
  intro hpos
  rcases h with h | h
  · rw [h] at hpos; exact absurd hpos (lt_irrefl 0)
  · exact Or.inl h

theorem maxStep_fst_le (st : ℚ × List String) (b : Bool) (a : ℚ) (t : List String) :
    st.1 ≤ (maxStep st b a t).1 := by
  unfold maxStep
  cases b with
  | false => simp
  | true =>
    show st.1 ≤ max st.1 a
    exact le_max_left st.1 a

theorem maxStep_methods_ne (st : ℚ × List String) (b : Bool) (a : ℚ) (t : List String)
    (h : st.2 ≠ []) : (maxStep st b a t).2 ≠ [] := by
  unfold maxStep
  cases b with
  | false => simpa using h
  | true => simp [h]

theorem runMaxChecks_init_le (init : ℚ × List String) (cs : List Check) :
    init.1 ≤ (runMaxChecks init cs).1 := by
  induction cs generalizing init with
  | nil => simp [runMaxChecks]
  | cons c cs ih =>
    exact le_trans (maxStep_fst_le init c.1 c.2.1 c.2.2) (ih _)

theorem runMaxChecks_methods_ne (init : ℚ × List String) (cs : List Check)
    (h : init.2 ≠ []) : (runMaxChecks init cs).2 ≠ [] := by
  induction cs generalizing init with
  | nil => simpa [runMaxChecks] using h
  | cons c cs ih =>
    exact ih _ (maxStep_methods_ne init c.1 c.2.1 c.2.2 h)

theorem runMaxChecks_cons (init : ℚ × List String) (c : Check) (cs : List Check) :
    runMaxChecks init (c :: cs) = runMaxChecks (maxStep init c.1 c.2.1 c.2.2) cs := rfl

theorem round4_nonneg {x : ℚ} (h : 0 ≤ x) : 0 ≤ round4 x := by
  unfold round4
  apply div_nonneg _ (by norm_num)
  have : (0 : ℤ) ≤ round (x * 10000) := by
    rw [round_eq]
    rw [Int.le_floor]
    push_cast
    linarith
  exact_mod_cast this

theorem round4_le_one {x : ℚ} (h : x ≤ 1) : round4 x ≤ 1 := by
  unfold round4
  rw [div_le_one (by norm_num)]
  have : round (x * 10000) ≤ (10000 : ℤ) := by
    rw [round_eq, Int.floor_le_iff]
    push_cast
    linarith
  exact_mod_cast this

theorem round4_one : round4 1 = 1 := by with_unfolding_all rfl

theorem bot_patterns_weight_ge {p : BotPattern} (hp : p ∈ bot_patterns) :
    0.1 ≤ p.weight := by
  fin_cases hp <;> norm_num

theorem patFold_confOk (L : List BotPattern) (l : List Char)
    (hw : ∀ p ∈ L, 0.1 ≤ p.weight) (init : ℚ × List String) (h : confOk init.1) :
    confOk ((L.foldl
      (fun st p => maxStep st (matchUA p.matcher l) p.weight ["pattern_" ++ p.category])
      init)).1 := by
  induction L generalizing init with
  | nil => simpa using h
  | cons q L ih =>
    have hq := hw q (List.mem_cons_self q L)
    have hw' : ∀ p ∈ L, 0.1 ≤ p.weight := fun p hp => hw p (List.mem_cons_of_mem q hp)
    rw [List.foldl_cons]
    exact ih hw' _ (confOk_maxStep h fun _ => hq)

theorem confOk_uaPatternState (l : List Char) : confOk (uaPatternState l).1 := by
  unfold uaPatternState
  exact patFold_confOk bot_patterns l (fun p hp => bot_patterns_weight_ge hp)
    (0, []) (Or.inl rfl)

theorem patFold_init_le (L : List BotPattern) (l : List Char) (init : ℚ × List String) :
    init.1 ≤ ((L.foldl
      (fun st p => maxStep st (matchUA p.matcher l) p.weight ["pattern_" ++ p.category])
      init)).1 := by
  induction L generalizing init with
  | nil => simp
  | cons q L ih =>
    rw [List.foldl_cons]
    exact le_trans (maxStep_fst_le init _ _ _) (ih _)

theorem patFold_fire (L : List BotPattern) (l : List Char) (p : BotPattern)
    (hp : p ∈ L) (hf : matchUA p.matcher l = true) (init : ℚ × List String) :
    p.weight ≤ ((L.foldl
      (fun st p => maxStep st (matchUA p.matcher l) p.weight ["pattern_" ++ p.category])
      init)).1 := by
  induction L generalizing init with
  | nil => simp at hp
  | cons q L ih =>
    rw [List.foldl_cons]
    rcases List.mem_cons.mp hp with rfl | hp'
    · refine le_trans ?_ (patFold_init_le L l _)
      unfold maxStep
      rw [hf]
      show p.weight ≤ max init.1 p.weight
      exact le_max_right _ _
    · exact ih hp' _

theorem patFold_methods_ne (L : List BotPattern) (l : List Char)
    (init : ℚ × List String) (h : init.2 ≠ []) :
    ((L.foldl
      (fun st p => maxStep st (matchUA p.matcher l) p.weight ["pattern_" ++ p.category])
      init)).2 ≠ [] := by
  induction L generalizing init with
  | nil => simpa using h
  | cons q L ih =>
    rw [List.foldl_cons]
    exact ih _ (maxStep_methods_ne init _ _ _ h)

theorem patFold_fire_methods (L : List BotPattern) (l : List Char) (p : BotPattern)
    (hp : p ∈ L) (hf : matchUA p.matcher l = true) (init : ℚ × List String) :
    ((L.foldl
      (fun st p => maxStep st (matchUA p.matcher l) p.weight ["pattern_" ++ p.category])
      init)).2 ≠ [] := by
  induction L generalizing init with
  | nil => simp at hp
  | cons q L ih =>
    rw [List.foldl_cons]
    rcases List.mem_cons.mp hp with rfl | hp'
    · apply patFold_methods_ne
      unfold maxStep
      rw [hf]
      simp
    · exact ih hp' _

theorem uaPatternState_fire (l : List Char) (p : BotPattern) (hp : p ∈ bot_patterns)
    (hf : matchUA p.matcher l = true) :
    p.weight ≤ (uaPatternState l).1 ∧ (uaPatternState l).2 ≠ [] := by
  unfold uaPatternState
  exact ⟨patFold_fire bot_patterns l p hp hf (0, []),
         patFold_fire_methods bot_patterns l p hp hf (0, [])⟩

theorem uaLengthCheck_amt (n : ℕ) :
    (uaLengthCheck n).1 = true → 0.1 ≤ (uaLengthCheck n).2.1 := by
  unfold uaLengthCheck
  split_ifs <;> intro h
  · norm_num
  · norm_num
  · norm_num
  · exact absurd h (by simp)

theorem checksOk_uaChecks (ua : String) (os : List String) :
    checksOk (uaChecks ua os) := by
  intro c hc
  simp only [uaChecks, List.mem_cons, List.not_mem_nil, or_false] at hc
  rcases hc with rfl | rfl | rfl | rfl | rfl
  · exact uaLengthCheck_amt ua.length
  all_goals intro _
  all_goals norm_num

theorem checksOk_headerChecks (hs : List (String × String)) :
    checksOk (headerChecks hs) := by
  intro c hc
  simp only [headerChecks, List.mem_cons, List.not_mem_nil, or_false] at hc
  rcases hc with rfl | rfl | rfl | rfl | rfl | rfl | rfl <;> intro _ <;> norm_num

theorem checksOk_behaviorChecks (bd : BehavioralData) :
    checksOk (behaviorChecks bd) := by
  intro c hc
  simp only [behaviorChecks, List.mem_cons, List.not_mem_nil, or_false] at hc
  rcases hc with rfl | rfl | rfl | rfl | rfl | rfl | rfl | rfl | rfl | rfl | rfl | rfl <;>
    intro _ <;> norm_num

theorem checksOk_fingerprintChecks (d : List (String × String)) :
    checksOk (fingerprintChecks d) := by
  intro c hc
  simp only [fingerprintChecks, List.mem_cons, List.not_mem_nil, or_false] at hc
  rcases hc with rfl | rfl | rfl | rfl <;> intro _ <;> norm_num

theorem checksOk_fontsPluginChecks (d : List (String × String)) (fcOpt : Option ℤ) :
    checksOk (fontsPluginChecks d fcOpt) := by
  intro c hc
  cases fcOpt with
  | none =>
    simp only [fontsPluginChecks, List.mem_cons, List.not_mem_nil, or_false,
      List.nil_append] at hc
    rcases hc with rfl
    intro _
    norm_num
  | some fc =>
    simp only [fontsPluginChecks, List.cons_append, List.nil_append, List.mem_cons,
      List.not_mem_nil, or_false] at hc
    rcases hc with rfl | rfl | rfl <;> intro _ <;> norm_num

/-! Per-analyzer invariants. -/

theorem ua_confOk {ua : String} {l : LayerResult}
    (h : analyze_user_agent_advanced ua = .ok l) : confOk l.confidence := by
  unfold analyze_user_agent_advanced at h
  by_cases hua : ua = ""
  · rw [if_pos hua] at h
    injection h with h
    rw [← h]
    right; norm_num
  · rw [if_neg hua] at h
    cases hos : check_os_consistency ua with
    | error e => rw [hos] at h; exact absurd h (by simp)
    | ok os =>
      rw [hos] at h
      injection h with h
      rw [← h]
      exact confOk_runMaxChecks (checksOk_uaChecks ua os) (confOk_uaPatternState _)

theorem ip_confOk (f : String → Bool) (ip : String) :
    confOk (analyze_ip_reputation f ip).confidence := by
  unfold analyze_ip_reputation confOk
  split_ifs <;> norm_num [le_max_iff]

theorem headers_confOk (hs : List (String × String)) :
    confOk (analyze_headers_advanced hs).confidence := by
  unfold analyze_headers_advanced
  apply confOk_min_one
  apply confOk_runAddChecks (checksOk_headerChecks hs)
  by_cases hm : (["accept", "accept-language", "accept-encoding", "user-agent"].filter
      fun h => (dictGet (headersLower hs) h).isNone).isEmpty
  · left
    simp only [hm]
    rw [List.isEmpty_iff] at hm
    simp [hm]
  · right
    have h1 : 1 ≤ (["accept", "accept-language", "accept-encoding", "user-agent"].filter
        fun h => (dictGet (headersLower hs) h).isNone).length := by
      rcases List.isEmpty_iff.not.mp hm |> List.length_pos.mpr with h
      exact h
    simp only []
    have : (1 : ℚ) ≤ ((["accept", "accept-language", "accept-encoding",
        "user-agent"].filter fun h => (dictGet (headersLower hs) h).isNone).length : ℚ) := by
      exact_mod_cast h1
    nlinarith

theorem behavior_confOk (bd : BehavioralData) :
    confOk (analyze_behavior_advanced bd).confidence := by
  unfold analyze_behavior_advanced
  exact confOk_min_one (confOk_runAddChecks (checksOk_behaviorChecks bd) (Or.inl rfl))

theorem fingerprint_confOk (fp : String) :
    confOk (analyze_browser_fingerprint fp).confidence := by
  unfold analyze_browser_fingerprint
  by_cases hfp : fp = ""
  · rw [if_pos hfp]
    right; norm_num
  · rw [if_neg hfp]
    have h4 : confOk (runAddChecks (0, [])
        (fingerprintChecks (decode_fingerprint fp))).1 :=
      confOk_runAddChecks (checksOk_fingerprintChecks _) (Or.inl rfl)
    cases hfo : dictGet (decode_fingerprint fp) "fonts" with
    | none =>
      simp only [hfo]
      exact confOk_min_one (confOk_runAddChecks (checksOk_fontsPluginChecks _ _) h4)
    | some v =>
      simp only [hfo]
      cases hfs : fontsStep v with
      | none =>
        simp only [hfs]
        apply confOk_min_one
        right
        have := confOk_nonneg h4
        show (0.1 : ℚ) ≤ _ + 0.20
        linarith
      | some fc =>
        simp only [hfs]
        exact confOk_min_one (confOk_runAddChecks (checksOk_fontsPluginChecks _ _) h4)

theorem patterns_confOk (pa : PatternAnalysis) :
    confOk (analyze_request_patterns_advanced pa).confidence := by
  unfold analyze_request_patterns_advanced confOk
  split_ifs <;> norm_num

theorem ml_layerOk (env : MLEnv) : layerOk (ml_ensemble_predict env) := by
  unfold ml_ensemble_predict layerOk
  split_ifs with h1
  · intro hpos
    exact absurd hpos (by norm_num)
  · cases env.outerError with
    | some e =>
      intro hpos
      exact absurd hpos (by norm_num)
    | none =>
      simp only []
      split_ifs with h2
      · intro hpos
        exact absurd hpos (by norm_num)
      · intro _
        right
        simp

/-! Accumulator and aggregator lemmas. -/

theorem methodBoost_nonneg {n : ℕ} (h : 1 ≤ n) : 0 ≤ methodBoost n := by
  unfold methodBoost
  have : (1 : ℚ) ≤ (n : ℚ) := by exact_mod_cast h
  apply le_min <;> linarith

theorem neg_tenth_le_methodBoost (n : ℕ) : -(0.1 : ℚ) ≤ methodBoost n := by
  unfold methodBoost
  have : (0 : ℚ) ≤ (n : ℚ) := by positivity
  apply le_min <;> linarith

theorem layerWeight_pos (s : String) : 0 < layerWeight s := by
  unfold layerWeight
  split_ifs <;> norm_num

theorem weightedLayerScore_nonneg {nl : String × LayerResult}
    (h1 : 0 < nl.2.confidence) (h2 : layerOk nl.2) : 0 ≤ weightedLayerScore nl := by
  unfold weightedLayerScore
  apply mul_nonneg _ (layerWeight_pos nl.1).le
  rcases h2 h1 with h | h
  · have := neg_tenth_le_methodBoost nl.2.methods.length
    linarith
  · have hlen : 1 ≤ nl.2.methods.length := List.length_pos.mpr h
    have := methodBoost_nonneg hlen
    linarith

theorem accOk_nil : accOk ⟨[], [], []⟩ := by
  constructor
  · intro nl h; simp at h
  · simp

theorem accOk_push {acc : DetectionAcc} (name : String) (l : LayerResult) (w : ℚ)
    (hacc : accOk acc) (hl : layerOk l) : accOk (pushLayer acc name l w) := by
  unfold pushLayer
  split_ifs with hpos
  · constructor
    · intro nl hmem
      rcases List.mem_append.mp hmem with h | h
      · exact hacc.1 nl h
      · rcases List.mem_singleton.mp h with rfl
        exact weightedLayerScore_nonneg hpos hl
    · simp
  · exact hacc

theorem pushLayer_mem {acc : DetectionAcc} (name : String) (l : LayerResult) (w : ℚ)
    {nl : String × LayerResult} (h : nl ∈ acc.layers) :
    nl ∈ (pushLayer acc name l w).layers := by
  unfold pushLayer
  split_ifs
  · exact List.mem_append_left _ h
  · exact h

theorem pushLayer_scores_ne {acc : DetectionAcc} (name : String) (l : LayerResult)
    (w : ℚ) (h : acc.scores ≠ []) : (pushLayer acc name l w).scores ≠ [] := by
  unfold pushLayer
  split_ifs
  · simp
  · exact h

theorem pushLayer_self (acc : DetectionAcc) (name : String) (l : LayerResult) (w : ℚ)
    (h : 0 < l.confidence) :
    (name, l) ∈ (pushLayer acc name l w).layers ∧
      (pushLayer acc name l w).scores ≠ [] := by
  unfold pushLayer
  rw [if_pos h]
  constructor
  · simp
  · simp

theorem calc_conf_le_one (scores : List ℚ) (layers : List (String × LayerResult)) :
    calculate_advanced_confidence scores layers ≤ 1 := by
  simp only [calculate_advanced_confidence]
  split_ifs
  · norm_num
  · norm_num
  · exact min_le_right _ _

theorem calc_conf_nonneg (scores : List ℚ) (layers : List (String × LayerResult))
    (hw : ∀ nl ∈ layers, 0 ≤ weightedLayerScore nl) :
    0 ≤ calculate_advanced_confidence scores layers := by
  simp only [calculate_advanced_confidence]
  split_ifs with h1 h2
  · norm_num
  · norm_num
  · apply le_min _ (by norm_num)
    have hne : layers ≠ [] := by
      intro hl
      rw [hl] at h2
      simp at h2
    obtain ⟨nl, hnl⟩ := List.exists_mem_of_ne_nil layers hne
    have hmem : weightedLayerScore nl ∈ layers.map weightedLayerScore :=
      List.mem_map_of_mem weightedLayerScore hnl
    have h0 : 0 ≤ maxQ (layers.map weightedLayerScore) :=
      le_trans (hw nl hnl) (le_maxQ_of_mem _ _ hmem)
    have hlen : 1 ≤ (layers.map weightedLayerScore).length := by
      apply List.length_pos.mpr
      intro hmap
      rw [hmap] at hmem
      simp at hmem
    have : (1 : ℚ) ≤ ((layers.map weightedLayerScore).length : ℚ) := by
      exact_mod_cast hlen
    linarith

theorem calc_conf_ge_of_mem (scores : List ℚ) (layers : List (String × LayerResult))
    (nl : String × LayerResult) (c : ℚ) (hs : scores ≠ []) (hmem : nl ∈ layers)
    (hc1 : c ≤ 1) (hw : c ≤ weightedLayerScore nl) :
    c ≤ calculate_advanced_confidence scores layers := by
  have hmem' : weightedLayerScore nl ∈ layers.map weightedLayerScore :=
    List.mem_map_of_mem weightedLayerScore hmem
  have hmapne : layers.map weightedLayerScore ≠ [] := by
    intro h
    rw [h] at hmem'
    simp at hmem'
  simp only [calculate_advanced_confidence]
  rw [if_neg (by simpa using hs), if_neg (by simpa using hmapne)]
  apply le_min _ hc1
  have h1 : c ≤ maxQ (layers.map weightedLayerScore) :=
    le_trans hw (le_maxQ_of_mem _ _ hmem')
  have hlen : 1 ≤ (layers.map weightedLayerScore).length := List.length_pos.mpr hmapne
  have : (1 : ℚ) ≤ ((layers.map weightedLayerScore).length : ℚ) := by exact_mod_cast hlen
  linarith

theorem detectAcc_ok (env : DetectionEnv) (req : RequestData) (layer2 : LayerResult)
    (hl2 : layerOk layer2) : accOk (detectAcc env req layer2) := by
  unfold detectAcc
  refine accOk_push _ _ _ ?_ (ml_layerOk env.ml)
  refine accOk_push _ _ _ ?_ (confOk_layerOk (fingerprint_confOk _))
  refine accOk_push _ _ _ ?_ (confOk_layerOk (patterns_confOk _))
  have h3 : accOk (pushLayer (pushLayer (pushLayer ⟨[], [], []⟩ "ip_reputation"
      (analyze_ip_reputation env.is_active req.ip_address) 0.25) "user_agent" layer2 0.20)
      "headers" (analyze_headers_advanced req.headers) 0.15) :=
    accOk_push _ _ _ (accOk_push _ _ _ (accOk_push _ _ _ accOk_nil
      (confOk_layerOk (ip_confOk _ _))) hl2) (confOk_layerOk (headers_confOk _))
  cases req.behavioral_data with
  | some bd => exact accOk_push _ _ _ h3 (confOk_layerOk (behavior_confOk bd))
  | none => exact h3

theorem detectAcc_ip_strong (env : DetectionEnv) (req : RequestData)
    (layer2 : LayerResult)
    (h : 0 < (analyze_ip_reputation env.is_active req.ip_address).confidence) :
    ("ip_reputation", analyze_ip_reputation env.is_active req.ip_address) ∈
        (detectAcc env req layer2).layers ∧
      (detectAcc env req layer2).scores ≠ [] := by
  unfold detectAcc
  obtain ⟨hm, hs⟩ := pushLayer_self ⟨[], [], []⟩ "ip_reputation"
    (analyze_ip_reputation env.is_active req.ip_address) 0.25 h
  cases req.behavioral_data with
  | some bd =>
      exact ⟨pushLayer_mem _ _ _ (pushLayer_mem _ _ _ (pushLayer_mem _ _ _
          (pushLayer_mem _ _ _ (pushLayer_mem _ _ _ (pushLayer_mem _ _ _ hm))))),
        pushLayer_scores_ne _ _ _ (pushLayer_scores_ne _ _ _ (pushLayer_scores_ne _ _ _
          (pushLayer_scores_ne _ _ _ (pushLayer_scores_ne _ _ _
            (pushLayer_scores_ne _ _ _ hs)))))⟩
  | none =>
      exact ⟨pushLayer_mem _ _ _ (pushLayer_mem _ _ _ (pushLayer_mem _ _ _
          (pushLayer_mem _ _ _ (pushLayer_mem _ _ _ hm)))),
        pushLayer_scores_ne _ _ _ (pushLayer_scores_ne _ _ _ (pushLayer_scores_ne _ _ _
          (pushLayer_scores_ne _ _ _ (pushLayer_scores_ne _ _ _ hs))))⟩

theorem detectAcc_ua_strong (env : DetectionEnv) (req : RequestData)
    (layer2 : LayerResult) (h : 0 < layer2.confidence) :
    ("user_agent", layer2) ∈ (detectAcc env req layer2).layers ∧
      (detectAcc env req layer2).scores ≠ [] := by
  unfold detectAcc
  obtain ⟨hm, hs⟩ := pushLayer_self _ "user_agent" layer2 0.20 h
  cases req.behavioral_data with
  | some bd =>
      exact ⟨pushLayer_mem _ _ _ (pushLayer_mem _ _ _ (pushLayer_mem _ _ _
          (pushLayer_mem _ _ _ (pushLayer_mem _ _ _ hm)))),
        pushLayer_scores_ne _ _ _ (pushLayer_scores_ne _ _ _ (pushLayer_scores_ne _ _ _
          (pushLayer_scores_ne _ _ _ (pushLayer_scores_ne _ _ _ hs))))⟩
  | none =>
      exact ⟨pushLayer_mem _ _ _ (pushLayer_mem _ _ _ (pushLayer_mem _ _ _
          (pushLayer_mem _ _ _ hm))),
        pushLayer_scores_ne _ _ _ (pushLayer_scores_ne _ _ _ (pushLayer_scores_ne _ _ _
          (pushLayer_scores_ne _ _ _ hs)))⟩

theorem ip_layer_blacklisted (f : String → Bool) (ip : String) (hip : ip ≠ "")
    (hbl : f ip = true) :
    (analyze_ip_reputation f ip).confidence = 0.95 ∧
      1 ≤ (analyze_ip_reputation f ip).methods.length := by
  simp only [analyze_ip_reputation, if_neg hip, hbl, if_true]
  split_ifs <;> constructor
  · show max 0.95 0.40 = 0.95
    norm_num [max_eq_left]
  · simp
  · rfl
  · simp

/-- Common decision consequence once some included layer's weighted
score reaches the given threshold `c`. -/
theorem detect_core_conf_ge (env : DetectionEnv) (req : RequestData)
    (layer2 : LayerResult) (nl : String × LayerResult) (c : ℚ)
    (hmem : nl ∈ (detectAcc env req layer2).layers)
    (hs : (detectAcc env req layer2).scores ≠ [])
    (hc1 : c ≤ 1) (hw : c ≤ weightedLayerScore nl) :
    c ≤ calculate_advanced_confidence (detectAcc env req layer2).scores
      (detectAcc env req layer2).layers :=
  calc_conf_ge_of_mem _ _ nl c hs hmem hc1 hw

theorem ua_layer_fire (ua : String) (l : LayerResult) (p : BotPattern)
    (hp : p ∈ bot_patterns) (hne : ua ≠ "")
    (hm : matchUA p.matcher (ua.toList.map Char.toLower) = true)
    (h : analyze_user_agent_advanced ua = .ok l) :
    p.weight ≤ l.confidence ∧ l.methods ≠ [] := by
  unfold analyze_user_agent_advanced at h
  rw [if_neg hne] at h
  cases hos : check_os_consistency ua with
  | error e =>
    rw [hos] at h
    exact absurd h (by simp)
  | ok os =>
    rw [hos] at h
    injection h with h
    rw [← h]
    obtain ⟨hge, hmne⟩ := uaPatternState_fire (ua.toList.map Char.toLower) p hp hm
    exact ⟨le_trans hge (runMaxChecks_init_le _ _), runMaxChecks_methods_ne _ _ hmne⟩

theorem bot_patterns_ss_weight {p : BotPattern} (hp : p ∈ bot_patterns)
    (hcat : p.category = "social" ∨ p.category = "search") : 0.88 ≤ p.weight := by
  fin_cases hp <;> first
    | (norm_num; done)
    | (rcases hcat with h | h <;> exact absurd h (by decide))

theorem containsSub_length {l pat : List Char} (h : containsSub l pat = true) :
    pat.length ≤ l.length := by
  unfold containsSub at h
  rw [List.any_eq_true] at h
  obtain ⟨i, _, hp⟩ := h
  unfold charsAt at hp
  have hpre := List.isPrefixOf_iff_prefix.mp hp
  have h1 := hpre.length_le
  have h2 : (l.drop i).length ≤ l.length := by
    rw [List.length_drop]
    omega
  omega

/-! Claim theorems. -/

/-- C1: for every request whose IP has an active blacklist entry
(`BlacklistStore.is_active(ip)` true), `detect_bot` returns
`is_bot = true` and a final confidence of at least 0.9 (the
`ip_blacklisted` layer alone pushes the aggregate to 1.0). -/
theorem c1_blacklisted_ip_forces_bot (env : DetectionEnv) (req : RequestData)
    (r : DetectionResult) (hip : req.ip_address ≠ "")
    (hbl : env.is_active req.ip_address = true)
    (hok : detect_bot env req = .ok r) :
    r.is_bot = true ∧ 0.9 ≤ r.confidence := by
  unfold detect_bot at hok
  cases hua : analyze_user_agent_advanced req.user_agent with
  | error e =>
    rw [hua] at hok
    exact absurd hok (by simp)
  | ok layer2 =>
    rw [hua] at hok
    injection hok with hok
    subst hok
    obtain ⟨hc95, hm1⟩ := ip_layer_blacklisted env.is_active req.ip_address hip hbl
    have hpos : 0 < (analyze_ip_reputation env.is_active req.ip_address).confidence := by
      rw [hc95]; norm_num
    obtain ⟨hmem, hs⟩ := detectAcc_ip_strong env req layer2 hpos
    have hw : (1 : ℚ) ≤ weightedLayerScore
        ("ip_reputation", analyze_ip_reputation env.is_active req.ip_address) := by
      unfold weightedLayerScore
      simp only []
      rw [hc95]
      have hb := methodBoost_nonneg hm1
      have hlw : layerWeight "ip_reputation" = 1.2 := by with_unfolding_all rfl
      rw [hlw]
      nlinarith
    have hfin : calculate_advanced_confidence (detectAcc env req layer2).scores
        (detectAcc env req layer2).layers = 1 := by
      have hge := detect_core_conf_ge env req layer2 _ 1 hmem hs le_rfl hw
      have hle := calc_conf_le_one (detectAcc env req layer2).scores
        (detectAcc env req layer2).layers
      linarith
    constructor
    · show decide (0.6 ≤ calculate_advanced_confidence (detectAcc env req layer2).scores
        (detectAcc env req layer2).layers) = true
      rw [hfin]
      simp only [decide_eq_true_eq]
      norm_num
    · show (0.9 : ℚ) ≤ round4 (calculate_advanced_confidence
        (detectAcc env req layer2).scores (detectAcc env req layer2).layers)
      rw [hfin, round4_one]
      norm_num

/-- Witness for C1 at a concrete blacklisted request. -/
theorem c1_witness :
    reqFacebook.ip_address ≠ "" ∧
    envAllBlacklisted.is_active reqFacebook.ip_address = true ∧
    blackResult.is_bot = true ∧ (0.9 : ℚ) ≤ blackResult.confidence := by
  have hok : detect_bot envAllBlacklisted reqFacebook = .ok blackResult := rfl
  have h := c1_blacklisted_ip_forces_bot envAllBlacklisted reqFacebook blackResult
    (by simp [reqFacebook]) rfl hok
  exact ⟨by simp [reqFacebook], rfl, h.1, h.2⟩

/-- C2 counterexample: the claim says a confirmed legitimate-crawler
user agent is routed to a non-punitive action, but on
"facebookexternalhit/1.1" (which matches the social pattern of
`bot_patterns`) the decision engine recommends the block action
`block_immediately` — there is no categorical override in
`_recommend_action`. -/
theorem c2_counterexample :
    (⟨UAMatcher.subs ["facebook", "facebookexternalhit", "facebot",
        "facebookcatalog"], 0.98, "social"⟩ : BotPattern) ∈ bot_patterns ∧
    matchUA (UAMatcher.subs ["facebook", "facebookexternalhit", "facebot",
        "facebookcatalog"]) (reqFacebook.user_agent.toList.map Char.toLower) = true ∧
    detect_bot envBenign reqFacebook = Except.ok fbResult ∧
    fbResult.is_bot = true ∧
    fbResult.recommended_action = "block_immediately" :=
  ⟨by simp [bot_patterns], by with_unfolding_all rfl, rfl,
   by with_unfolding_all rfl, by with_unfolding_all rfl⟩

/-- C2 amended: a request whose user agent matches a social or search
pattern of `bot_patterns` is classified `is_bot = true`, but via the
high pattern weight rather than a categorical override, and the
recommended action is the block action `block_immediately` — not a
non-punitive action. -/
theorem c2_crawler_blocked (env : DetectionEnv) (req : RequestData)
    (r : DetectionResult) (p : BotPattern) (hp : p ∈ bot_patterns)
    (hcat : p.category = "social" ∨ p.category = "search")
    (hne : req.user_agent ≠ "")
    (hm : matchUA p.matcher (req.user_agent.toList.map Char.toLower) = true)
    (hok : detect_bot env req = .ok r) :
    r.is_bot = true ∧ r.recommended_action = "block_immediately" := by
  unfold detect_bot at hok
  cases hua : analyze_user_agent_advanced req.user_agent with
  | error e =>
    rw [hua] at hok
    exact absurd hok (by simp)
  | ok layer2 =>
    rw [hua] at hok
    injection hok with hok
    subst hok
    obtain ⟨hge, hmne⟩ := ua_layer_fire req.user_agent layer2 p hp hne hm hua
    have hw088 : (0.88 : ℚ) ≤ p.weight := bot_patterns_ss_weight hp hcat
    have hconf : (0.88 : ℚ) ≤ layer2.confidence := le_trans hw088 hge
    have hpos : 0 < layer2.confidence := lt_of_lt_of_le (by norm_num) hconf
    obtain ⟨hmem, hs⟩ := detectAcc_ua_strong env req layer2 hpos
    have hw : (0.88 : ℚ) ≤ weightedLayerScore ("user_agent", layer2) := by
      unfold weightedLayerScore
      simp only []
      have hb := methodBoost_nonneg (List.length_pos.mpr hmne)
      have hlw : layerWeight "user_agent" = 1.0 := by with_unfolding_all rfl
      rw [hlw]
      nlinarith
    have hge88 := detect_core_conf_ge env req layer2 _ 0.88 hmem hs (by norm_num) hw
    constructor
    · show decide (0.6 ≤ calculate_advanced_confidence (detectAcc env req layer2).scores
        (detectAcc env req layer2).layers) = true
      simp only [decide_eq_true_eq]
      linarith
    · show recommend_action (calculate_advanced_confidence
          (detectAcc env req layer2).scores (detectAcc env req layer2).layers)
        (detectAcc env req layer2).layers = "block_immediately"
      unfold recommend_action
      rw [if_pos (by linarith : (0.85 : ℚ) ≤ _)]

/-- Witness for C2 (amended) at the concrete Facebook-crawler request. -/
theorem c2_witness :
    fbResult.is_bot = true ∧ fbResult.recommended_action = "block_immediately" :=
  c2_crawler_blocked envBenign reqFacebook fbResult
    ⟨UAMatcher.subs ["facebook", "facebookexternalhit", "facebot", "facebookcatalog"],
      0.98, "social"⟩
    (by simp [bot_patterns]) (Or.inl rfl) (by simp [reqFacebook])
    (by with_unfolding_all rfl) rfl

/-- C3: on every nonempty set of triggered layers the aggregator
equals the spec formula: per layer
`(confidence + min(0.1*(method_count-1), 0.3)) * weight`, and overall
`min(max(weighted) + 0.05*(num_layers-1), 1.0)` — the strongest
weighted layer dominates rather than an average. -/
theorem c3_aggregator_formula (scores : List ℚ)
    (layers : List (String × LayerResult)) (hs : scores ≠ []) (hl : layers ≠ []) :
    calculate_advanced_confidence scores layers = specFinalConfidence layers := by
  simp only [calculate_advanced_confidence, specFinalConfidence]
  rw [if_neg (by simpa using hs),
      if_neg (by simpa [List.isEmpty_iff] using hl)]
  rw [List.length_map]

/-- Witness for C3 at a concrete scores/layers pair. -/
theorem c3_witness :
    ([(0.2 : ℚ)] ≠ []) ∧
    ([("user_agent", (⟨0.8, ["short_ua"]⟩ : LayerResult))] ≠ []) ∧
    calculate_advanced_confidence [0.2]
        [("user_agent", ⟨0.8, ["short_ua"]⟩)] =
      specFinalConfidence [("user_agent", ⟨0.8, ["short_ua"]⟩)] :=
  ⟨by simp, by simp,
   c3_aggregator_formula [0.2] [("user_agent", ⟨0.8, ["short_ua"]⟩)]
     (by simp) (by simp)⟩

/-- C4: for every environment and request on which `detect_bot`
returns, the reported confidence lies in [0,1], no matter which layers
triggered or what their confidences were. -/
theorem c4_confidence_in_unit_interval (env : DetectionEnv) (req : RequestData)
    (r : DetectionResult) (hok : detect_bot env req = .ok r) :
    0 ≤ r.confidence ∧ r.confidence ≤ 1 := by
  unfold detect_bot at hok
  cases hua : analyze_user_agent_advanced req.user_agent with
  | error e =>
    rw [hua] at hok
    exact absurd hok (by simp)
  | ok layer2 =>
    rw [hua] at hok
    injection hok with hok
    subst hok
    have hacc := detectAcc_ok env req layer2 (confOk_layerOk (ua_confOk hua))
    have h0 := calc_conf_nonneg (detectAcc env req layer2).scores
      (detectAcc env req layer2).layers hacc.1
    have h1 := calc_conf_le_one (detectAcc env req layer2).scores
      (detectAcc env req layer2).layers
    exact ⟨round4_nonneg h0, round4_le_one h1⟩

/-- Witness for C4 at the concrete Facebook-crawler request. -/
theorem c4_witness : 0 ≤ fbResult.confidence ∧ fbResult.confidence ≤ 1 :=
  c4_confidence_in_unit_interval envBenign reqFacebook fbResult rfl

/-- C5: the decision engine's recommended action always lies in the
five-action set, chosen by the thresholds 0.85 / 0.7 / 0.5 / 0.3 (the
source strings realize the spec's block / challenge / monitor_closely /
log_for_analysis / allow labels). -/
theorem c5_recommend_action_policy (c : ℚ) (layers : List (String × LayerResult)) :
    recommend_action c layers ∈
      ["block_immediately", "challenge_required", "monitor_closely",
       "log_for_analysis", "allow_with_tracking"] ∧
    (0.85 ≤ c → recommend_action c layers = "block_immediately") ∧
    (0.7 ≤ c → c < 0.85 → recommend_action c layers = "challenge_required") ∧
    (0.5 ≤ c → c < 0.7 → recommend_action c layers = "monitor_closely") ∧
    (0.3 ≤ c → c < 0.5 → recommend_action c layers = "log_for_analysis") ∧
    (c < 0.3 → recommend_action c layers = "allow_with_tracking") := by
  unfold recommend_action
  split_ifs with h1 h2 h3 h4 <;>
    refine ⟨by simp, ?_, ?_, ?_, ?_, ?_⟩ <;> intros <;> first | rfl | linarith

/-- Witness for C5 at two concrete confidences. -/
theorem c5_witness :
    ((0.85 : ℚ) ≤ 0.9 ∧ recommend_action 0.9 [] = "block_immediately") ∧
    ((0.2 : ℚ) < 0.3 ∧ recommend_action 0.2 [] = "allow_with_tracking") :=
  ⟨⟨by norm_num, (c5_recommend_action_policy 0.9 []).2.1 (by norm_num)⟩,
   ⟨by norm_num, (c5_recommend_action_policy 0.2 []).2.2.2.2.2 (by norm_num)⟩⟩

/-- C6 counterexample: the claim says an exception in any extractor is
degraded to a zero-confidence result and classification completes, but
on the user agent "Mozilla/5.0 (Windows NT .; Win64; x64)" the
user-agent analyzer's `float('')` ValueError propagates and
`detect_bot` aborts with it. -/
theorem c6_counterexample :
    detect_bot envBenign reqWindowsCrash = Except.error floatError := by
  with_unfolding_all rfl

/-- C6 amended: only the ML-ensemble extractor converts an exception
into a zero-confidence `ml_ensemble_error` result and lets the
pipeline complete; an exception raised by the user-agent extractor is
not caught by `detect_bot` and aborts the classification. -/
theorem c6_only_ml_catches :
    (∀ (env : DetectionEnv) (req : RequestData) (msg : String),
      analyze_user_agent_advanced req.user_agent = .error msg →
      detect_bot env req = .error msg) ∧
    (∀ menv : MLEnv, menv.models ≠ [] → ∀ msg, menv.outerError = some msg →
      ml_ensemble_predict menv = ⟨0, ["ml_ensemble_error"]⟩) ∧
    (∀ (env : DetectionEnv) (req : RequestData) (l2 : LayerResult),
      analyze_user_agent_advanced req.user_agent = .ok l2 →
      ∃ r, detect_bot env req = .ok r) := by
  refine ⟨?_, ?_, ?_⟩
  · intro env req msg h
    unfold detect_bot
    rw [h]
  · intro menv hne msg hmsg
    unfold ml_ensemble_predict
    rw [if_neg (by simpa using hne), hmsg]
  · intro env req l2 h
    unfold detect_bot
    rw [h]
    exact ⟨_, rfl⟩

/-- Witness for C6 (amended): the concrete crash request aborts with
the ValueError, and a concrete ML environment with an outer exception
yields the zero-confidence error-tagged layer. -/
theorem c6_witness :
    detect_bot envBenign reqWindowsCrash = Except.error floatError ∧
    ml_ensemble_predict ⟨[("isolation_forest", MLModel.classifier 0.5)], some "boom"⟩ =
      ⟨0, ["ml_ensemble_error"]⟩ :=
  ⟨c6_only_ml_catches.1 envBenign reqWindowsCrash floatError (by with_unfolding_all rfl),
   c6_only_ml_catches.2.1 ⟨[("isolation_forest", MLModel.classifier 0.5)], some "boom"⟩
     (by simp) "boom" rfl⟩

/-- C7: from a state with no row for the IP, calling the blacklist
upsert twice with the same (ip, reason, confidence) yields one row for
that IP (the store is keyed by the unique IP column), active, with
`detection_count` incremented exactly once per call (1 then 2) and
`confidence_score` equal to the max of the old and new value, hence
monotonically non-decreasing. -/
theorem c7_blacklist_upsert_idempotent (store : BlacklistStore)
    (ip reason method ua fp cc : String) (conf : ℚ) (h : store ip = none) :
    ∃ e1 e2 : BlacklistEntry,
      add_to_blacklist_advanced store ip reason conf method ua fp cc ip = some e1 ∧
      add_to_blacklist_advanced (add_to_blacklist_advanced store ip reason conf method ua fp cc)
        ip reason conf method ua fp cc ip = some e2 ∧
      e1.is_active = true ∧ e2.is_active = true ∧
      e1.detection_count = 1 ∧ e2.detection_count = 2 ∧
      e1.confidence_score = conf ∧
      e2.confidence_score = max e1.confidence_score conf ∧
      e1.confidence_score ≤ e2.confidence_score := by
  have h1 : add_to_blacklist_advanced store ip reason conf method ua fp cc ip =
      some ⟨reason, conf, method, ua, fp, cc, 1, true⟩ := by
    unfold add_to_blacklist_advanced
    rw [h]
    simp
  have h2 : ∀ s1 : BlacklistStore,
      s1 ip = some ⟨reason, conf, method, ua, fp, cc, 1, true⟩ →
      add_to_blacklist_advanced s1 ip reason conf method ua fp cc ip =
        some ⟨reason, conf, method, ua, fp, cc, 2, true⟩ := by
    intro s1 hs1
    unfold add_to_blacklist_advanced
    rw [hs1]
    simp [lt_irrefl]
  exact ⟨⟨reason, conf, method, ua, fp, cc, 1, true⟩,
         ⟨reason, conf, method, ua, fp, cc, 2, true⟩,
         h1, h2 _ h1, rfl, rfl, rfl, rfl, rfl, (max_self conf).symm, le_refl conf⟩

/-- Witness for C7 on the empty store. -/
theorem c7_witness :
    ((fun _ => none : BlacklistStore) "203.0.113.5" = none) ∧
    ∃ e1 e2 : BlacklistEntry,
      add_to_blacklist_advanced (fun _ => none) "203.0.113.5" "bot" 0.95 "m" "ua" "fp"
        "US" "203.0.113.5" = some e1 ∧
      add_to_blacklist_advanced (add_to_blacklist_advanced (fun _ => none) "203.0.113.5"
        "bot" 0.95 "m" "ua" "fp" "US") "203.0.113.5" "bot" 0.95 "m" "ua" "fp" "US"
        "203.0.113.5" = some e2 ∧
      e1.is_active = true ∧ e2.is_active = true ∧
      e1.detection_count = 1 ∧ e2.detection_count = 2 ∧
      e1.confidence_score = 0.95 ∧
      e2.confidence_score = max e1.confidence_score 0.95 ∧
      e1.confidence_score ≤ e2.confidence_score :=
  ⟨rfl, c7_blacklist_upsert_idempotent (fun _ => none) "203.0.113.5" "bot" "m" "ua" "fp"
    "US" 0.95 rfl⟩

/-- C8 counterexample: the claim says a nonempty undecodable
fingerprint yields strictly positive confidence, but on "!!!" (which
base64-decodes to no key:value component) the fingerprint analyzer
returns confidence 0. -/
theorem c8_counterexample :
    "!!!" ≠ "" ∧ decode_fingerprint "!!!" = [] ∧
    ¬(0 < (analyze_browser_fingerprint "!!!").confidence) := by
  refine ⟨by simp, by with_unfolding_all rfl, ?_⟩
  have h : analyze_browser_fingerprint "!!!" = ⟨0, []⟩ := by with_unfolding_all rfl
  rw [h]
  norm_num

/-- C8 amended: a nonempty fingerprint that does not decode to any
key:value component yields the zero-confidence, zero-method result —
neither a positive weak signal nor an exception (the fingerprint_decode_error tag
only arises from a decodable payload whose fonts count fails to parse). -/
theorem c8_undecodable_fingerprint_zero (fp : String) (hne : fp ≠ "")
    (hdec : decode_fingerprint fp = []) :
    analyze_browser_fingerprint fp = ⟨0, []⟩ := by
  unfold analyze_browser_fingerprint
  rw [if_neg hne]
  simp only [hdec]
  with_unfolding_all rfl

/-- Witness for C8 (amended) at the concrete fingerprint "!!!". -/
theorem c8_witness :
    "!!!" ≠ "" ∧ analyze_browser_fingerprint "!!!" = ⟨0, []⟩ :=
  ⟨by simp, c8_undecodable_fingerprint_zero "!!!" (by simp) (by with_unfolding_all rfl)⟩

/-- C10: an automatic blacklist upsert against a soft-deleted
(`is_active = False`) row updates `detection_count`,
`confidence_score` and `detection_method` but never writes
`is_active`, so the row stays inactive and `is_blacklisted` keeps
returning false despite the new higher-confidence detection. -/
theorem c10_soft_deleted_stays_inactive (store : BlacklistStore)
    (ip reason method ua fp cc : String) (conf : ℚ) (e : BlacklistEntry)
    (h : store ip = some e) (ha : e.is_active = false)
    (hc : e.confidence_score < conf) :
    ∃ e2 : BlacklistEntry,
      add_to_blacklist_advanced store ip reason conf method ua fp cc ip = some e2 ∧
      e2.is_active = false ∧
      is_blacklisted (add_to_blacklist_advanced store ip reason conf method ua fp cc)
        ip = false ∧
      e2.detection_count = e.detection_count + 1 ∧
      e2.confidence_score = conf ∧ e2.detection_method = method := by
  have h2 : add_to_blacklist_advanced store ip reason conf method ua fp cc ip =
      some ⟨e.reason, conf, method, e.user_agent, e.fingerprint, e.country_code,
        e.detection_count + 1, e.is_active⟩ := by
    unfold add_to_blacklist_advanced
    rw [h]
    simp [hc]
  refine ⟨_, h2, ha, ?_, rfl, rfl, rfl⟩
  unfold is_blacklisted
  rw [h2]
  exact ha

/-- C9: for every user agent that is empty or shorter than 10
characters, the user-agent layer succeeds with confidence at least 0.7
(0.85 for the missing user agent, at least 0.80 from the
`extremely_short_ua` band otherwise; such short strings cannot reach
the Windows-NT ValueError path). -/
theorem c9_short_ua_high_conf (ua : String) (h : ua.length < 10) :
    ∃ l : LayerResult, analyze_user_agent_advanced ua = .ok l ∧
      0.7 ≤ l.confidence := by
  unfold analyze_user_agent_advanced
  by_cases hua : ua = ""
  · rw [if_pos hua]
    exact ⟨_, rfl, by norm_num⟩
  · rw [if_neg hua]
    have hwin : containsSub ua.toList ("Windows NT".toList) = false := by
      cases hcs : containsSub ua.toList ("Windows NT".toList)
      · rfl
      · exfalso
        have hlen := containsSub_length hcs
        have h10 : ("Windows NT".toList).length = 10 := rfl
        have hl : ua.toList.length = ua.length := rfl
        omega
    have hos : check_os_consistency ua = .ok ([] ++ macIssues ua) := by
      unfold check_os_consistency windowsIssues
      rw [hwin]
      simp
    rw [hos]
    refine ⟨_, rfl, ?_⟩
    have h20 : ua.length < 20 := by omega
    have hlc : uaLengthCheck ua.length = (true, 0.80, ["extremely_short_ua"]) := by
      unfold uaLengthCheck
      rw [if_pos h20]
    have hchain : uaChecks ua ([] ++ macIssues ua) =
        uaLengthCheck ua.length ::
          [(chromeBad ua.toList, 0.50, ["suspicious_chrome_version"]),
           (!([] ++ macIssues ua).isEmpty, 0.45, [] ++ macIssues ua),
           (!(check_browser_features ua).isEmpty, 0.40, check_browser_features ua),
           (lowEntropyUA ua.toList, 0.35, ["low_entropy_ua"])] := rfl
    rw [hchain, runMaxChecks_cons, hlc]
    refine le_trans ?_ (runMaxChecks_init_le _ _)
    show (0.7 : ℚ) ≤ (maxStep (uaPatternState (ua.toList.map Char.toLower))
      true 0.80 ["extremely_short_ua"]).1
    unfold maxStep
    rw [if_pos rfl]
    exact le_trans (by norm_num) (le_max_right _ (0.80 : ℚ))

/-- Witness for C9 at the concrete user agent "curl". -/
theorem c9_witness :
    ("curl" : String).length < 10 ∧
    ∃ l : LayerResult, analyze_user_agent_advanced "curl" = .ok l ∧
      0.7 ≤ l.confidence := by
  have hlen : ("curl" : String).length < 10 := by
    have : ("curl" : String).length = 4 := rfl
    omega
  exact ⟨hlen, c9_short_ua_high_conf "curl" hlen⟩

/-- Witness for C10 on a store holding one inactive row. -/
theorem c10_witness :
    ((fun k => if k = "203.0.113.5" then
        some (⟨"old", 0.5, "m0", "", "", "", 3, false⟩ : BlacklistEntry)
      else none) : BlacklistStore) "203.0.113.5" =
        some ⟨"old", 0.5, "m0", "", "", "", 3, false⟩ ∧
    (0.5 : ℚ) < 0.95 ∧
    ∃ e2 : BlacklistEntry,
      add_to_blacklist_advanced (fun k => if k = "203.0.113.5" then
          some ⟨"old", 0.5, "m0", "", "", "", 3, false⟩ else none)
        "203.0.113.5" "bot" 0.95 "m" "ua" "fp" "US" "203.0.113.5" = some e2 ∧
      e2.is_active = false ∧
      is_blacklisted (add_to_blacklist_advanced (fun k => if k = "203.0.113.5" then
          some ⟨"old", 0.5, "m0", "", "", "", 3, false⟩ else none)
        "203.0.113.5" "bot" 0.95 "m" "ua" "fp" "US") "203.0.113.5" = false ∧
      e2.detection_count = 3 + 1 ∧
      e2.confidence_score = 0.95 ∧ e2.detection_method = "m" :=
  ⟨by simp, by norm_num,
   c10_soft_deleted_stays_inactive _ "203.0.113.5" "bot" "m" "ua" "fp" "US" 0.95
     ⟨"old", 0.5, "m0", "", "", "", 3, false⟩ (by simp) rfl (by norm_num)⟩

end Dogify
